import Mathlib

/-!
Verification of the viewbinding code generator (src/main.c).

The program scans `.ui` XML files, collects `(class, id)` attribute pairs
from `object` elements and `handler` attribute values from `signal`
elements, and renders a C header per file containing a binding struct and
bind / bind-private / callback-bind macros.

The definitions below are a shallow embedding of the C functions of
src/main.c, keeping their names.  GLib strings become `String`, `GList` /
`GArray` accumulators become `List`, attribute name/value vectors become
`List (String × String)`.
-/

set_option maxRecDepth 20000

/-- The `ClassId` struct of main.c: one named widget, with its declared
type (`class`) and its identifier (`id`). -/
structure ClassId where
  «class» : String
  id : String
deriving DecidableEq, Repr

/-- Embeds `g_ascii_tolower`: lowercase a single ASCII letter, other characters
unchanged. -/
def g_ascii_tolower (c : Char) : Char :=
  if 65 ≤ c.toNat ∧ c.toNat ≤ 90 then Char.ofNat (c.toNat + 32) else c

/-- Embeds `g_ascii_toupper` guarded by `g_ascii_islower` as in
`generate_object_code`: uppercase a lowercase ASCII letter, other
characters unchanged. -/
def g_ascii_upper_of_lower (c : Char) : Char :=
  if 97 ≤ c.toNat ∧ c.toNat ≤ 122 then Char.ofNat (c.toNat - 32) else c

/-- The `g_strrstr`/`g_strndup` step of `generate_code`: keep the
characters strictly before the last `.` of the file name.  (When the
name has no `.` at all the C code has undefined behaviour — the pointer
difference `dot - file_name` with `dot == NULL`; the program only ever
passes names ending in `.ui`.  Here the no-dot case returns `[]`.) -/
def strip_last_dot (s : List Char) : List Char :=
  ((s.reverse.dropWhile (fun c => c ≠ '.')).drop 1).reverse

/-- Embeds `g_string_replace (base, "-", "_", -1)`: replace every `-` with `_`. -/
def replace_dash (s : List Char) : List Char :=
  s.map (fun c => if c = '-' then '_' else c)

/-- Embeds `g_string_ascii_down`: lowercase every ASCII letter. -/
def g_string_ascii_down (s : List Char) : List Char :=
  s.map g_ascii_tolower

/-- Base-name derivation of `generate_code` (main.c lines 360–366):
strip from the last `.`, replace `-` with `_`, ASCII-lowercase. -/
def base_name (file_name : String) : String :=
  ⟨g_string_ascii_down (replace_dash (strip_last_dot file_name.data))⟩

/-- Embeds `g_strsplit_set (base_name, "_", -1)`: split at every `_`, keeping
empty tokens.  (GLib returns a zero-length vector for the empty string
where this returns `[[]]`; the caller skips empty tokens, so the
difference is unobservable in `generate_object_code`.) -/
def g_strsplit_underscore : List Char → List (List Char)
  | [] => [[]]
  | c :: rest =>
    match g_strsplit_underscore rest with
    | [] => [[c]]
    | s :: ss => if c = '_' then [] :: s :: ss else (c :: s) :: ss

/-- The loop body of `generate_object_code` lines 447–455: skip empty
parts, uppercase the first character of each part when it is a lowercase
letter, and append. -/
def pascal_step (acc : List Char) (part : List Char) : List Char :=
  match part with
  | [] => acc
  | c :: rest => acc ++ (g_ascii_upper_of_lower c :: rest)

/-- The `name_builder` GString of `generate_object_code`: PascalCase form
of the base name. -/
def name_builder (base : String) : String :=
  ⟨(g_strsplit_underscore base.data).foldl pascal_step []⟩

/-- The struct name as emitted: `name_builder` plus the literal suffix
`Binding`. -/
def struct_name (base : String) : String :=
  name_builder base ++ "Binding"

/-- Modelled from the spec (§4.2 struct-name derivation): split the base
name on `_`, drop empty segments, title-case the first
letter, concatenate with no separator, append `Binding`.  Used only to
compare against the code-derived `struct_name`. -/
def struct_name_spec (base : String) : String :=
  String.mk (((g_strsplit_underscore base.data).filter
      (fun p => !p.isEmpty)).map
    (fun p => match p with
      | [] => []
      | c :: rest => g_ascii_upper_of_lower c :: rest)).flatten
  ++ "Binding"

/-- The attribute-scanning loop of `handle_object_attribute` (main.c
lines 305–313): walk the name/value pairs, remembering the most recent
value seen for `class` and for `id` (each assignment overwrites). -/
def scan_object_attrs : List (String × String) → Option String → Option String →
    Option String × Option String
  | [], cls, idv => (cls, idv)
  | (n, v) :: rest, cls, idv =>
    if n = "class" then scan_object_attrs rest (some v) idv
    else if n = "id" then scan_object_attrs rest cls (some v)
    else scan_object_attrs rest cls idv

/-- Embeds `handle_object_attribute`: if both a `class` and an `id` value were
found, append a new `ClassId` to the accumulator (`g_list_append`);
otherwise leave the accumulator unchanged. -/
def handle_object_attribute (attrs : List (String × String))
    (acc : List ClassId) : List ClassId :=
  match scan_object_attrs attrs none none with
  | (some c, some i) => acc ++ [⟨c, i⟩]
  | _ => acc

/-- The attribute-scanning loop of `handle_signal_attribute` (main.c
lines 339–346): return the value of the first `handler` attribute and
stop (`break`), or `none` if there is none. -/
def find_first_handler : List (String × String) → Option String
  | [] => none
  | (n, v) :: rest =>
    if n = "handler" then some v else find_first_handler rest

/-- Embeds `handle_signal_attribute`: append the first `handler` value, if any,
to the signal accumulator (`g_array_append_val`). -/
def handle_signal_attribute (attrs : List (String × String))
    (acc : List String) : List String :=
  match find_first_handler attrs with
  | some v => acc ++ [v]
  | none => acc

/-- The per-file state: the `user_data` accumulators of the two
registered parsers (`class_parser` holds a `GList` of `ClassId`,
`signal_parser` a `GArray` of handler names). -/
structure Accumulators where
  objects : List ClassId
  signals : List String
deriving DecidableEq, Repr

/-- A freshly initialised / torn-down accumulator pair (`user_data`
is `NULL` for both parsers). -/
def emptyAccs : Accumulators := ⟨[], []⟩

/-- One element-open event delivered by the GMarkup scan: tag name and
the ordered attribute name/value pairs. -/
structure Element where
  name : String
  attrs : List (String × String)

/-- The `start` callback of the GMarkup parser (main.c lines 247–257):
look the tag name up in the parser map and run the matching attribute
handler; unregistered tags are ignored. -/
def start (acc : Accumulators) (e : Element) : Accumulators :=
  if e.name = "object" then
    { acc with objects := handle_object_attribute e.attrs acc.objects }
  else if e.name = "signal" then
    { acc with signals := handle_signal_attribute e.attrs acc.signals }
  else acc

/-- The whole streaming scan of one document: fold `start` over the
element-open events in document order. -/
def scanDocument (events : List Element) (st : Accumulators) : Accumulators :=
  events.foldl start st

/-- Embeds `g_str_hash`, the GLib djb-style string hash (external
collaborator, modelled from the GLib source file gstring.c): `h := h * 33 + byte` over an unsigned
32-bit accumulator starting at 5381. -/
def g_str_hash (s : String) : Nat :=
  s.data.foldl (fun h c => (h * 33 + c.toNat) % 4294967296) 5381

/-- Modelled from the GLib source file ghash.c (external collaborator): the bucket
index of a key in a freshly created 8-slot hash table is
`(hash * 11 mod 2^32) mod 7` (prime_mod for the minimum table size). -/
def g_hash_slot (key : String) : Nat :=
  (g_str_hash key * 11) % 4294967296 % 7

/-- The two element kinds registered in `view_binding_parser_map`
(main.c lines 225–228). -/
inductive ElementKind where
  | object
  | signal
deriving DecidableEq, Repr

/-- Modelled from the GLib source file ghash.c: `g_hash_table_foreach`
visits buckets in ascending slot order, so the emitters run ordered by
the bucket
indices.  The keys `object` and `signal` land in distinct buckets, so no
probing is involved. -/
def kind_emit_order : List ElementKind :=
  if g_hash_slot "object" ≤ g_hash_slot "signal" then
    [ElementKind.object, ElementKind.signal]
  else
    [ElementKind.signal, ElementKind.object]

/-- One struct field line of `generate_object_code`:
`"\t%s *%s;\n"` with the declared class and the identifier. -/
def struct_field_line (e : ClassId) : String :=
  "\t" ++ e.«class» ++ " *" ++ e.id ++ ";\n"

/-- One line of the bind macro of `generate_object_code`. -/
def bind_line (nameB : String) (e : ClassId) : String :=
  "\t\tview_binding_full(widget_class, WidgetType, " ++ nameB ++
    "Binding, binding_name, " ++ e.id ++ ") \\\n"

/-- One line of the bind-private macro of `generate_object_code`. -/
def bind_private_line (nameB : String) (e : ClassId) : String :=
  "\t\tview_binding_full_private(widget_class, WidgetType, " ++ nameB ++
    "Binding, binding_name, " ++ e.id ++ ") \\\n"

/-- One line of the callback macro of `generate_signal_code`. -/
def callback_line (handler : String) : String :=
  "\t\tgtk_widget_class_bind_template_callback(GTK_WIDGET_CLASS(widget_class), " ++
    handler ++ "); \\\n"

/-- Embeds `generate_object_code` (main.c lines 434–503): emits nothing for an
empty accumulator; otherwise the Class Bindings section — the binding
struct, the bind macro and the bind-private macro, each iterating the
entries in list order. -/
def generate_object_code (base : String) (entries : List ClassId) : String :=
  if entries.isEmpty then "" else
  let nameB := name_builder base
  "\n/* Class Bindings */\n" ++
  "typedef struct \x7b\n" ++
  String.join (entries.map struct_field_line) ++
  "\x7d " ++ nameB ++ "Binding;\n" ++
  "\n" ++
  "#define " ++ base ++ "_view_binding(widget_class, WidgetType, binding_name) \\\n" ++
  "\tdo \x7b \\\n" ++
  String.join (entries.map (bind_line nameB)) ++
  "\t\x7d while(0) \n" ++
  "\n" ++
  "#define " ++ base ++ "_view_binding_private(widget_class, WidgetType, binding_name) \\\n" ++
  "\tdo \x7b \\\n" ++
  String.join (entries.map (bind_private_line nameB)) ++
  "\t\x7d while(0) \n"

/-- Embeds `generate_signal_code` (main.c lines 505–528): emits nothing for an
empty accumulator; otherwise the Signal Handlers section — the callback
macro with one registration line per recorded handler, in list order. -/
def generate_signal_code (base : String) (signals : List String) : String :=
  if signals.isEmpty then "" else
  "\n/* Signal Handlers */\n" ++
  "#define " ++ base ++ "_view_binding_callback(widget_class) \\\n" ++
  "\tdo \x7b \\\n" ++
  String.join (signals.map callback_line) ++
  "\t\x7d while(0) \n"

/-- The fixed text emitted by `generate_code` before the per-kind
sections (main.c lines 380–413): generated-file comment, outer include
guard, and the shared `VIEW_BINDING_INSIDE_UTILS` block with the two
general-purpose macros. -/
def shared_prelude (app base : String) : String :=
  "/* Generated By View Binding Code Generator, Do Not Edit By Hand */\n\n" ++
  "#ifndef " ++ app ++ "_" ++ base ++ "_VIEW_BINDING_H_\n" ++
  "#define " ++ app ++ "_" ++ base ++ "_VIEW_BINDING_H_\n" ++
  "\n" ++
  "#ifndef VIEW_BINDING_INSIDE_UTILS\n" ++
  "#define VIEW_BINDING_INSIDE_UTILS\n" ++
  "\n" ++
  "#define view_binding_full(widget_class, WidgetType, BindingType, binding_name, widget_name) \\\n" ++
  "\tgtk_widget_class_bind_template_child_full(GTK_WIDGET_CLASS(widget_class), #widget_name, FALSE, G_STRUCT_OFFSET(WidgetType, binding_name) + G_STRUCT_OFFSET(BindingType, widget_name));\n" ++
  "\n" ++
  "#define view_binding_full_private(widget_class, WidgetType, BindingType, binding_name, widget_name) \\\n" ++
  "\tgtk_widget_class_bind_template_child_full(GTK_WIDGET_CLASS(widget_class), #widget_name, FALSE, G_PRIVATE_OFFSET(WidgetType, binding_name) + G_STRUCT_OFFSET(BindingType, widget_name));\n" ++
  "\n" ++
  "#endif /* VIEW_BINDING_INSIDE_UTILS */\n"

/-- The closing include-guard terminator of `generate_code` (main.c
lines 419–421). -/
def header_guard_close (app base : String) : String :=
  "\n#endif /* " ++ app ++ "_" ++ base ++ "_VIEW_BINDING_H_ */\n"

/-- The code emitter selected for one registered kind
(`parser->generate_code` in `hash_table_for_each`). -/
def emit_kind (base : String) (acc : Accumulators) : ElementKind → String
  | ElementKind.object => generate_object_code base acc.objects
  | ElementKind.signal => generate_signal_code base acc.signals

/-- The `g_hash_table_foreach (view_binding_parser_map,
hash_table_for_each, …)` call of `generate_code`: run the emitter of
each kind, in bucket order. -/
def generated_sections (base : String) (acc : Accumulators) : String :=
  String.join (kind_emit_order.map (emit_kind base acc))

/-- Embeds `generate_code` (main.c lines 357–432): derives the base name and
the output file name, and assembles the full output text.  Returns
`(output file name, output text)`. -/
def generate_code (app : String) (file_name : String)
    (acc : Accumulators) : String × String :=
  let base := base_name file_name
  (base ++ "_viewbinding.h",
   shared_prelude app base ++ generated_sections base acc ++
     header_guard_close app base)

/-- One input file as seen through the GMarkup scan (the XML parser is
an external collaborator): the element-open events it delivers before
either succeeding or reporting a malformed-markup error. -/
structure UIFile where
  name : String
  delivered : List Element
  wellFormed : Bool

/-- Embeds `read_and_parse_xml_file` (main.c lines 203–245): builds the parser
map fresh, runs the scan over the incoming accumulator state, and on
success hands the populated accumulators to `generate_code`.  On both
the success and the error path the value destructor of the map
(`destroy_view_binding_parser`) frees the `user_data` of each parser and
resets it to `NULL`, so the state handed to the next file is empty. -/
def read_and_parse_xml_file (app : String) (st : Accumulators)
    (f : UIFile) : Option (String × String) × Accumulators :=
  let st' := scanDocument f.delivered st
  if f.wellFormed then
    (some (generate_code app f.name st'), emptyAccs)
  else
    (none, emptyAccs)

/-- The per-file loop of `main` (main.c lines 125–130), threading the
global `user_data` state of the parsers from file to file and collecting the
written outputs. -/
def main_loop_go (app : String) (st : Accumulators) :
    List UIFile → List (String × String)
  | [] => []
  | f :: fs =>
    ((read_and_parse_xml_file app st f).1).toList ++
      main_loop_go app (read_and_parse_xml_file app st f).2 fs

/-- The whole run over the matched files: the parsers start with `NULL`
`user_data`. -/
def main_loop (app : String) (fs : List UIFile) : List (String × String) :=
  main_loop_go app emptyAccs fs

/-! ### Helper lemmas -/

theorem str_data_empty : ("" : String).data = [] := rfl

theorem str_append_assoc (a b c : String) : a ++ b ++ c = a ++ (b ++ c) := by
  apply String.ext
  simp [String.data_append, List.append_assoc]

theorem kind_emit_order_eq :
    kind_emit_order = [ElementKind.object, ElementKind.signal] := by
  decide

/-- A sublist that occurs inside `A` also occurs inside `A ++ R`. -/
theorem sub_extend_right {α : Type} {pat A : List α} (R : List α)
    (h : pat <:+: A) : pat <:+: A ++ R := by
  obtain ⟨s, t, e⟩ := h
  exact ⟨s, t ++ R, by rw [← e]; simp [List.append_assoc]⟩

/-- A sublist that occurs inside `R` also occurs inside `A ++ R`. -/
theorem sub_extend_left {α : Type} {pat R : List α} (A : List α)
    (h : pat <:+: R) : pat <:+: A ++ R := by
  obtain ⟨s, t, e⟩ := h
  exact ⟨A ++ s, t, by rw [← e]; simp [List.append_assoc]⟩

/-- Exhibiting a string as `s ++ mid ++ t` shows `mid` occurs inside it. -/
theorem sub_of_decomp {mid big : String} (s t : String)
    (h : big = s ++ mid ++ t) : mid.data <:+: big.data := by
  subst h
  exact ⟨s.data, t.data, by simp [String.data_append]⟩

/-- The concrete element-open events of the end-to-end scenario file
`window.ui`. -/
def window_ui_events : List Element :=
  [⟨"object", [("class", "GtkButton"), ("id", "submit_btn")]⟩,
   ⟨"signal", [("handler", "on_submit_clicked")]⟩]

/-- The `(output file name, output text)` pair produced for the
end-to-end scenario. -/
def window_ui_output : String × String :=
  generate_code "app_example_Demo" "window.ui"
    (scanDocument window_ui_events emptyAccs)

/-- The scenario output text decomposes into the prelude, the object
section, the signal section and the closing guard, with the concrete
base name `window` and the collected accumulators. -/
theorem window_ui_output_decomp :
    window_ui_output.2 =
      shared_prelude "app_example_Demo" "window" ++
        (generate_object_code "window" [⟨"GtkButton", "submit_btn"⟩] ++
          (generate_signal_code "window" ["on_submit_clicked"] ++
            header_guard_close "app_example_Demo" "window")) := by
  have hacc : scanDocument window_ui_events emptyAccs =
      ⟨[⟨"GtkButton", "submit_btn"⟩], ["on_submit_clicked"]⟩ := rfl
  have hbase : base_name "window.ui" = "window" := by decide
  show (generate_code "app_example_Demo" "window.ui"
      (scanDocument window_ui_events emptyAccs)).2 = _
  rw [hacc]
  simp [generate_code, generated_sections, kind_emit_order_eq, emit_kind,
    hbase, String.join, str_append_assoc, String.append_empty,
    String.empty_append]

/-- String-level form of `sub_extend_right`. -/
theorem str_sub_extend_right {pat : List Char} {A : String} (R : String)
    (h : pat <:+: A.data) : pat <:+: (A ++ R).data := by
  rw [String.data_append]
  exact sub_extend_right _ h

/-- String-level form of `sub_extend_left`. -/
theorem str_sub_extend_left {pat : List Char} {R : String} (A : String)
    (h : pat <:+: R.data) : pat <:+: (A ++ R).data := by
  rw [String.data_append]
  exact sub_extend_left _ h

/-- C2 counterexample: the end-to-end output does not contain the guard
token `APP_EXAMPLE_DEMO_window_VIEW_BINDING_H_` that the claim expects —
the application id is emitted verbatim, never uppercased (the token
contains an `X` while the whole output text contains none). -/
theorem window_ui_guard_not_uppercased :
    ¬ ("APP_EXAMPLE_DEMO_window_VIEW_BINDING_H_".data <:+:
        window_ui_output.2.data) := by
  intro h
  exact absurd (h.subset (by decide : 'X' ∈
    "APP_EXAMPLE_DEMO_window_VIEW_BINDING_H_".data))
    (by decide : 'X' ∉ window_ui_output.2.data)

/-- C2 amended: for input `window.ui` containing
`<object class="GtkButton" id="submit_btn"/>` and
`<signal handler="on_submit_clicked"/>` with application id
`app_example_Demo`, the output file is named `window_viewbinding.h` and
its text contains the include-guard token
`app_example_Demo_window_VIEW_BINDING_H_` (the application id and base
name emitted verbatim, not re-cased), the struct `WindowBinding` with
the single field `GtkButton *submit_btn;`, and the callback macro
registering `on_submit_clicked`. -/
theorem window_ui_end_to_end :
    window_ui_output.1 = "window_viewbinding.h" ∧
    ("app_example_Demo_window_VIEW_BINDING_H_".data <:+:
        window_ui_output.2.data) ∧
    ("typedef struct \x7b\n\tGtkButton *submit_btn;\n\x7d WindowBinding;\n".data <:+:
        window_ui_output.2.data) ∧
    (("#define window_view_binding_callback(widget_class) \\\n\tdo \x7b \\\n" ++
        callback_line "on_submit_clicked" ++
        "\t\x7d while(0) \n").data <:+:
        window_ui_output.2.data) := by
  refine ⟨rfl, ?_, ?_, ?_⟩ <;> rw [window_ui_output_decomp]
  · exact str_sub_extend_right _ (by decide)
  · exact str_sub_extend_left _ (str_sub_extend_right _ (by decide))
  · exact str_sub_extend_left _ (str_sub_extend_left _
      (str_sub_extend_right _ (by decide)))

/-- C4: the renderer is deterministic — two runs on the same application
id, file name and accumulator contents produce byte-identical output
(`generate_code` depends only on those inputs; the global
`output_buffer` is freed and re-created at the start of every call). -/
theorem renderer_deterministic (app app' file file' : String)
    (a a' : Accumulators) (h1 : app = app') (h2 : file = file')
    (h3 : a = a') :
    generate_code app file a = generate_code app' file' a' := by
  subst h1; subst h2; subst h3; rfl

theorem renderer_deterministic_witness :
    generate_code "com_example_App" "window.ui" emptyAccs =
      generate_code "com_example_App" "window.ui" emptyAccs :=
  renderer_deterministic "com_example_App" "com_example_App" "window.ui"
    "window.ui" emptyAccs emptyAccs rfl rfl rfl

/-- The overwriting scan of `handle_object_attribute`, folded from the
front: the value retained for a key is the one of the last occurrence
of that key (or the incoming default when the key never occurs). -/
def last_binding (key : String) :
    List (String × String) → Option String → Option String
  | [], dflt => dflt
  | p :: rest, dflt =>
    last_binding key rest (if p.1 = key then some p.2 else dflt)

theorem scan_object_attrs_eq (attrs : List (String × String)) :
    ∀ cls idv, scan_object_attrs attrs cls idv =
      (last_binding "class" attrs cls, last_binding "id" attrs idv) := by
  induction attrs with
  | nil => intro cls idv; rfl
  | cons p rest ih =>
    intro cls idv
    obtain ⟨n, v⟩ := p
    by_cases h1 : n = "class"
    · simp [scan_object_attrs, last_binding, h1, ih]
    · by_cases h2 : n = "id"
      · simp [scan_object_attrs, last_binding, h1, h2, ih]
      · simp [scan_object_attrs, last_binding, h1, h2, ih]

theorem last_binding_some_iff (key : String) (attrs : List (String × String)) :
    ∀ dflt, (last_binding key attrs dflt).isSome = true ↔
      (dflt.isSome = true ∨ ∃ v, (key, v) ∈ attrs) := by
  induction attrs with
  | nil => intro dflt; simp [last_binding]
  | cons p rest ih =>
    intro dflt
    obtain ⟨n, v0⟩ := p
    by_cases h : n = key
    · subst h
      simp [last_binding, ih]
    · simp [last_binding, h, ih, Ne.symm h]

/-- C3 counterexample: an `object` element whose `class` and `id`
attributes are both present but empty-valued still records an entry —
the code only checks for attribute presence (non-NULL), not for
non-empty values, so the non-empty requirement of the claim is false. -/
theorem empty_valued_attrs_still_recorded :
    handle_object_attribute [("class", ""), ("id", "")] [] =
      [{ «class» := "", id := "" }] := by
  decide

/-- C3 amended: an entry is recorded if and only if the element carries
both a `class` attribute and an `id` attribute (their values may be
empty); an element missing either attribute leaves the accumulator
unchanged — no entry, hence no struct field, and no error (the handler
is total). -/
theorem object_entry_iff_both_attrs_present
    (attrs : List (String × String)) (acc : List ClassId) :
    ((∃ e, handle_object_attribute attrs acc = acc ++ [e]) ↔
      ((∃ v, ("class", v) ∈ attrs) ∧ (∃ v, ("id", v) ∈ attrs))) ∧
    (¬((∃ v, ("class", v) ∈ attrs) ∧ (∃ v, ("id", v) ∈ attrs)) →
      handle_object_attribute attrs acc = acc) := by
  have hc := last_binding_some_iff "class" attrs none
  have hi := last_binding_some_iff "id" attrs none
  simp only [Option.isSome_none, false_or] at hc hi
  unfold handle_object_attribute
  rw [scan_object_attrs_eq]
  rcases hcls : last_binding "class" attrs none with _ | c <;>
    rcases hid : last_binding "id" attrs none with _ | i <;>
    rw [hcls] at hc <;> rw [hid] at hi <;> simp at hc hi
  · exact ⟨by simp [hc], fun _ => rfl⟩
  · exact ⟨by simp [hc], fun _ => rfl⟩
  · exact ⟨by simp [hi], fun _ => rfl⟩
  · refine ⟨⟨fun _ => ⟨hc, hi⟩, fun _ => ⟨⟨c, i⟩, rfl⟩⟩, fun hno => absurd ⟨hc, hi⟩ hno⟩

theorem object_entry_iff_both_attrs_present_witness :
    handle_object_attribute [("id", "x")] [] = [] :=
  (object_entry_iff_both_attrs_present [("id", "x")] []).2
    (by rintro ⟨⟨v, hv⟩, _⟩; simp at hv)

/-- C7 counterexample: for an `object` element whose attribute list
repeats the key `class`, the recorded entry uses the value of the LAST
occurrence (`GtkButton`), not the first (`GtkLabel`) as the claim
states — the scan loop overwrites on every match. -/
theorem duplicate_class_keeps_last_occurrence :
    handle_object_attribute
        [("class", "GtkLabel"), ("class", "GtkButton"), ("id", "w")] [] =
      [{ «class» := "GtkButton", id := "w" }] ∧
    handle_object_attribute
        [("class", "GtkLabel"), ("class", "GtkButton"), ("id", "w")] [] ≠
      [{ «class» := "GtkLabel", id := "w" }] := by
  constructor
  · decide
  · decide

/-- C7 amended: when `class` or `id` appears more than once in an
`object` element, the recorded entry uses the LAST
occurrence of each duplicated key — the scan keeps overwriting the
remembered value (`last_binding`). -/
theorem duplicate_keys_last_occurrence_used
    (attrs : List (String × String)) (acc : List ClassId) :
    handle_object_attribute attrs acc =
      match last_binding "class" attrs none, last_binding "id" attrs none with
      | some c, some i => acc ++ [{ «class» := c, id := i }]
      | _, _ => acc := by
  unfold handle_object_attribute
  rw [scan_object_attrs_eq]
  rcases last_binding "class" attrs none with _ | c <;>
    rcases last_binding "id" attrs none with _ | i <;> rfl

theorem find_first_handler_of_clean (pre : List (String × String))
    (hpre : ∀ p ∈ pre, p.1 ≠ "handler") :
    (∀ v : String, ∀ rest : List (String × String),
      find_first_handler (pre ++ ("handler", v) :: rest) = some v) ∧
    find_first_handler pre = none := by
  induction pre with
  | nil => exact ⟨fun v rest => by simp [find_first_handler], rfl⟩
  | cons p ps ih =>
    have hp : p.1 ≠ "handler" := hpre p (List.mem_cons_self p ps)
    have hps : ∀ q ∈ ps, q.1 ≠ "handler" :=
      fun q hq => hpre q (List.mem_cons_of_mem p hq)
    obtain ⟨n, v0⟩ := p
    refine ⟨fun v rest => ?_, ?_⟩
    · simp only [List.cons_append, find_first_handler]
      rw [if_neg hp]
      exact (ih hps).1 v rest
    · simp only [find_first_handler]
      rw [if_neg hp]
      exact (ih hps).2

/-- C6: the signal collector records the FIRST `handler` value and stops
scanning — whatever attributes follow (including further `handler`
pairs) are ignored, so at most one entry is appended per element; and an
element with no `handler` attribute at all records nothing (hence
contributes no callback line). -/
theorem first_handler_recorded_and_scan_stops (acc : List String)
    (pre rest : List (String × String)) (v : String)
    (hpre : ∀ p ∈ pre, p.1 ≠ "handler") :
    handle_signal_attribute (pre ++ ("handler", v) :: rest) acc =
      acc ++ [v] ∧
    (∀ attrs : List (String × String), (∀ p ∈ attrs, p.1 ≠ "handler") →
      handle_signal_attribute attrs acc = acc) := by
  constructor
  · unfold handle_signal_attribute
    rw [(find_first_handler_of_clean pre hpre).1 v rest]
  · intro attrs hattrs
    unfold handle_signal_attribute
    rw [(find_first_handler_of_clean attrs hattrs).2]

theorem first_handler_recorded_and_scan_stops_witness :
    handle_signal_attribute
        [("swapped", "no"), ("handler", "on_a"), ("handler", "on_b")] [] =
      [] ++ ["on_a"] :=
  (first_handler_recorded_and_scan_stops []
    [("swapped", "no")] [("handler", "on_b")] "on_a"
    (by intro p hp; simp at hp; subst hp; decide)).1

theorem pascal_fold (parts : List (List Char)) :
    ∀ acc, parts.foldl pascal_step acc =
      acc ++ ((parts.filter (fun p => !p.isEmpty)).map
        (fun p => match p with
          | [] => []
          | c :: rest => g_ascii_upper_of_lower c :: rest)).flatten := by
  induction parts with
  | nil => intro acc; simp
  | cons p ps ih =>
    intro acc
    cases p with
    | nil => simp [pascal_step, ih]
    | cons c rest => simp [pascal_step, ih, List.append_assoc]

/-- C8: the base name of `My-Window.ui` is `my_window` (strip from the
last `.`, `-` to `_`, ASCII-lowercase) and its struct name is
`MyWindowBinding`; in general the struct-name construction of the code
(`name_builder` + `Binding`) agrees with the description in the spec
(`struct_name_spec`): split on `_`, title-case the first letter of each
non-empty segment, concatenate, append `Binding`. -/
theorem base_name_and_struct_name_derivation :
    base_name "My-Window.ui" = "my_window" ∧
    struct_name (base_name "My-Window.ui") = "MyWindowBinding" ∧
    ∀ base : String, struct_name base = struct_name_spec base := by
  refine ⟨by decide, by decide, fun base => ?_⟩
  unfold struct_name struct_name_spec name_builder
  rw [pascal_fold]
  rfl

theorem read_and_parse_resets_state (app : String) (st : Accumulators)
    (f : UIFile) : (read_and_parse_xml_file app st f).2 = emptyAccs := by
  unfold read_and_parse_xml_file
  by_cases h : f.wellFormed <;> simp [h]

theorem main_loop_go_append (app : String) (fs1 fs2 : List UIFile) :
    main_loop_go app emptyAccs (fs1 ++ fs2) =
      main_loop_go app emptyAccs fs1 ++ main_loop_go app emptyAccs fs2 := by
  induction fs1 with
  | nil => simp [main_loop_go]
  | cons f fs ih =>
    simp only [List.cons_append, main_loop_go, read_and_parse_resets_state,
      List.append_eq, ih, List.append_assoc]

theorem main_loop_characterization (app : String) (fs : List UIFile) :
    main_loop app fs = fs.filterMap (fun f =>
      if f.wellFormed then
        some (generate_code app f.name (scanDocument f.delivered emptyAccs))
      else none) := by
  induction fs with
  | nil => rfl
  | cons f fs ih =>
    show main_loop_go app emptyAccs (f :: fs) = _
    rw [main_loop_go, read_and_parse_resets_state]
    unfold read_and_parse_xml_file
    by_cases h : f.wellFormed <;> simp [h, List.filterMap_cons]
    · exact ih
    · exact ih

/-- C9: a malformed file in the middle of the run is skipped in
isolation — no output is produced for it, the partial state its
delivered events built is torn down, and the surrounding files produce
exactly what they produce in runs without it; moreover the output of
every file depends only on the events of that file alone, starting from empty
accumulators. -/
theorem parse_failure_skips_only_that_file (app : String)
    (fs1 fs2 : List UIFile) (m : UIFile) (hm : m.wellFormed = false) :
    main_loop app (fs1 ++ m :: fs2) =
      main_loop app fs1 ++ main_loop app fs2 ∧
    main_loop app (fs1 ++ m :: fs2) = (fs1 ++ fs2).filterMap (fun f =>
      if f.wellFormed then
        some (generate_code app f.name (scanDocument f.delivered emptyAccs))
      else none) := by
  have h1 : main_loop app (fs1 ++ m :: fs2) =
      main_loop app fs1 ++ main_loop app fs2 := by
    show main_loop_go app emptyAccs (fs1 ++ m :: fs2) = _
    rw [main_loop_go_append]
    show _ ++ main_loop_go app emptyAccs (m :: fs2) = _
    rw [main_loop_go, read_and_parse_resets_state]
    unfold read_and_parse_xml_file
    simp [hm]
    rfl
  refine ⟨h1, ?_⟩
  rw [h1, main_loop_characterization, main_loop_characterization,
    List.filterMap_append]

theorem parse_failure_skips_only_that_file_witness :
    main_loop "com_example_App"
        [⟨"a.ui", [⟨"signal", [("handler", "go")]⟩], true⟩,
         ⟨"bad.ui", [⟨"object", [("class", "GtkLabel"), ("id", "l")]⟩], false⟩,
         ⟨"b.ui", [], true⟩] =
      main_loop "com_example_App"
          [⟨"a.ui", [⟨"signal", [("handler", "go")]⟩], true⟩] ++
        main_loop "com_example_App" [⟨"b.ui", [], true⟩] :=
  (parse_failure_skips_only_that_file "com_example_App"
    [⟨"a.ui", [⟨"signal", [("handler", "go")]⟩], true⟩]
    [⟨"b.ui", [], true⟩]
    ⟨"bad.ui", [⟨"object", [("class", "GtkLabel"), ("id", "l")]⟩], false⟩
    rfl).1

/-- The output of `generate_code` decomposed into its four parts, with
the hash-bucket iteration order resolved: the object emitter runs before
the signal emitter. -/
theorem generate_code_decomp (app file : String) (acc : Accumulators) :
    (generate_code app file acc).2 =
      shared_prelude app (base_name file) ++
        (generate_object_code (base_name file) acc.objects ++
          (generate_signal_code (base_name file) acc.signals ++
            header_guard_close app (base_name file))) := by
  simp [generate_code, generated_sections, kind_emit_order_eq, emit_kind,
    String.join, str_append_assoc, String.empty_append]

theorem generate_object_code_cons (base : String) (e : ClassId)
    (es : List ClassId) :
    ∃ s, generate_object_code base (e :: es) =
      "\n/* Class Bindings */\n" ++ s := by
  refine ⟨"typedef struct \x7b\n" ++
    String.join ((e :: es).map struct_field_line) ++
    "\x7d " ++ name_builder base ++ "Binding;\n" ++ "\n" ++
    "#define " ++ base ++ "_view_binding(widget_class, WidgetType, binding_name) \\\n" ++
    "\tdo \x7b \\\n" ++
    String.join ((e :: es).map (bind_line (name_builder base))) ++
    "\t\x7d while(0) \n" ++ "\n" ++
    "#define " ++ base ++ "_view_binding_private(widget_class, WidgetType, binding_name) \\\n" ++
    "\tdo \x7b \\\n" ++
    String.join ((e :: es).map (bind_private_line (name_builder base))) ++
    "\t\x7d while(0) \n", ?_⟩
  simp [generate_object_code, str_append_assoc]
  rw [show ("\n/* Class Bindings */\ntypedef struct \x7b\n" : String) =
      "\n/* Class Bindings */\n" ++ "typedef struct \x7b\n" from by decide]
  rw [str_append_assoc]

theorem generate_signal_code_cons (base : String) (v : String)
    (vs : List String) :
    ∃ s, generate_signal_code base (v :: vs) =
      "\n/* Signal Handlers */\n" ++ s := by
  refine ⟨"#define " ++ base ++ "_view_binding_callback(widget_class) \\\n" ++
    "\tdo \x7b \\\n" ++
    String.join ((v :: vs).map callback_line) ++
    "\t\x7d while(0) \n", ?_⟩
  simp [generate_signal_code, str_append_assoc]
  rw [show ("\n/* Signal Handlers */\n#define " : String) =
      "\n/* Signal Handlers */\n" ++ "#define " from by decide]
  rw [str_append_assoc]

/-- C1: for every rendering with both accumulators non-empty, the
output text is the prelude, then the whole object-kind section (struct,
bind macro, bind-private macro, starting with the `Class Bindings`
marker), then the whole signal-kind section (callback macro, starting
with the `Signal Handlers` marker), then the closing guard — the object
object-kind emitter runs before the signal-kind emitter. -/
theorem object_section_emitted_before_signal_section (app file : String)
    (acc : Accumulators) (ho : acc.objects ≠ []) (hs : acc.signals ≠ []) :
    ((generate_code app file acc).2 =
      shared_prelude app (base_name file) ++
        (generate_object_code (base_name file) acc.objects ++
          (generate_signal_code (base_name file) acc.signals ++
            header_guard_close app (base_name file)))) ∧
    (∃ s, generate_object_code (base_name file) acc.objects =
      "\n/* Class Bindings */\n" ++ s) ∧
    (∃ s, generate_signal_code (base_name file) acc.signals =
      "\n/* Signal Handlers */\n" ++ s) := by
  refine ⟨generate_code_decomp app file acc, ?_, ?_⟩
  · obtain ⟨e, es, he⟩ := List.exists_cons_of_ne_nil ho
    rw [he]
    exact generate_object_code_cons (base_name file) e es
  · obtain ⟨v, vs, hv⟩ := List.exists_cons_of_ne_nil hs
    rw [hv]
    exact generate_signal_code_cons (base_name file) v vs

theorem object_section_emitted_before_signal_section_witness :
    (generate_code "com_example_App" "a.ui"
        ⟨[⟨"GtkButton", "b"⟩], ["on_h"]⟩).2 =
      shared_prelude "com_example_App" (base_name "a.ui") ++
        (generate_object_code (base_name "a.ui") [⟨"GtkButton", "b"⟩] ++
          (generate_signal_code (base_name "a.ui") ["on_h"] ++
            header_guard_close "com_example_App" (base_name "a.ui"))) :=
  (object_section_emitted_before_signal_section "com_example_App" "a.ui"
    ⟨[⟨"GtkButton", "b"⟩], ["on_h"]⟩ (by decide) (by decide)).1

/-- C5: widgets declared in document order `id=a, id=b, id=c` are
accumulated in exactly that order, and both the struct fields and the
bind-macro lines appear contiguously in exactly that order in the
rendered output. -/
theorem document_order_preserved (app file t1 t2 t3 a b c : String) :
    (scanDocument
        [⟨"object", [("class", t1), ("id", a)]⟩,
         ⟨"object", [("class", t2), ("id", b)]⟩,
         ⟨"object", [("class", t3), ("id", c)]⟩] emptyAccs) =
      ⟨[⟨t1, a⟩, ⟨t2, b⟩, ⟨t3, c⟩], []⟩ ∧
    ((struct_field_line ⟨t1, a⟩ ++ struct_field_line ⟨t2, b⟩ ++
        struct_field_line ⟨t3, c⟩).data <:+:
      (generate_code app file ⟨[⟨t1, a⟩, ⟨t2, b⟩, ⟨t3, c⟩], []⟩).2.data) ∧
    ((bind_line (name_builder (base_name file)) ⟨t1, a⟩ ++
        bind_line (name_builder (base_name file)) ⟨t2, b⟩ ++
        bind_line (name_builder (base_name file)) ⟨t3, c⟩).data <:+:
      (generate_code app file ⟨[⟨t1, a⟩, ⟨t2, b⟩, ⟨t3, c⟩], []⟩).2.data) := by
  refine ⟨rfl, ?_, ?_⟩ <;> rw [generate_code_decomp] <;>
    apply str_sub_extend_left <;> apply str_sub_extend_right
  · apply sub_of_decomp
      ("\n/* Class Bindings */\n" ++ "typedef struct \x7b\n")
      ("\x7d " ++ name_builder (base_name file) ++ "Binding;\n" ++ "\n" ++
        "#define " ++ base_name file ++
        "_view_binding(widget_class, WidgetType, binding_name) \\\n" ++
        "\tdo \x7b \\\n" ++
        bind_line (name_builder (base_name file)) ⟨t1, a⟩ ++
        bind_line (name_builder (base_name file)) ⟨t2, b⟩ ++
        bind_line (name_builder (base_name file)) ⟨t3, c⟩ ++
        "\t\x7d while(0) \n" ++ "\n" ++
        "#define " ++ base_name file ++
        "_view_binding_private(widget_class, WidgetType, binding_name) \\\n" ++
        "\tdo \x7b \\\n" ++
        bind_private_line (name_builder (base_name file)) ⟨t1, a⟩ ++
        bind_private_line (name_builder (base_name file)) ⟨t2, b⟩ ++
        bind_private_line (name_builder (base_name file)) ⟨t3, c⟩ ++
        "\t\x7d while(0) \n")
    simp [generate_object_code, String.join, str_append_assoc,
      String.empty_append]
  · apply sub_of_decomp
      ("\n/* Class Bindings */\n" ++ "typedef struct \x7b\n" ++
        struct_field_line ⟨t1, a⟩ ++ struct_field_line ⟨t2, b⟩ ++
        struct_field_line ⟨t3, c⟩ ++
        "\x7d " ++ name_builder (base_name file) ++ "Binding;\n" ++ "\n" ++
        "#define " ++ base_name file ++
        "_view_binding(widget_class, WidgetType, binding_name) \\\n" ++
        "\tdo \x7b \\\n")
      ("\t\x7d while(0) \n" ++ "\n" ++
        "#define " ++ base_name file ++
        "_view_binding_private(widget_class, WidgetType, binding_name) \\\n" ++
        "\tdo \x7b \\\n" ++
        bind_private_line (name_builder (base_name file)) ⟨t1, a⟩ ++
        bind_private_line (name_builder (base_name file)) ⟨t2, b⟩ ++
        bind_private_line (name_builder (base_name file)) ⟨t3, c⟩ ++
        "\t\x7d while(0) \n")
    simp [generate_object_code, String.join, str_append_assoc,
      String.empty_append]

theorem struct_field_line_mentions_id (e : ClassId) :
    e.id.data <:+: (struct_field_line e).data :=
  ⟨("\t" ++ e.«class» ++ " *").data, ";\n".data,
    by simp [struct_field_line, String.data_append, List.append_assoc]⟩

theorem bind_line_mentions_id (nb : String) (e : ClassId) :
    e.id.data <:+: (bind_line nb e).data :=
  ⟨("\t\tview_binding_full(widget_class, WidgetType, " ++ nb ++
      "Binding, binding_name, ").data, ") \\\n".data,
    by simp [bind_line, String.data_append, List.append_assoc]⟩

theorem bind_private_line_mentions_id (nb : String) (e : ClassId) :
    e.id.data <:+: (bind_private_line nb e).data :=
  ⟨("\t\tview_binding_full_private(widget_class, WidgetType, " ++ nb ++
      "Binding, binding_name, ").data, ") \\\n".data,
    by simp [bind_private_line, String.data_append, List.append_assoc]⟩

/-- C10: with n > 0 recorded object entries, the generated struct has
exactly n field lines, the bind macro n invocation lines and the
bind-private macro n invocation lines; the k-th line of each of the
three sequences references the k-th recorded identifier (`Forall₂`
pairs the entries with the lines positionally), and the three joined
line blocks each occur in the rendered output, in their respective
struct / bind / bind-private positions. -/
theorem object_section_counts_and_identifiers (app file : String)
    (acc : Accumulators) (h : acc.objects ≠ []) :
    (acc.objects.map struct_field_line).length = acc.objects.length ∧
    (acc.objects.map
        (bind_line (name_builder (base_name file)))).length =
      acc.objects.length ∧
    (acc.objects.map
        (bind_private_line (name_builder (base_name file)))).length =
      acc.objects.length ∧
    List.Forall₂ (fun (e : ClassId) (l : String) => e.id.data <:+: l.data)
      acc.objects (acc.objects.map struct_field_line) ∧
    List.Forall₂ (fun (e : ClassId) (l : String) => e.id.data <:+: l.data)
      acc.objects
      (acc.objects.map (bind_line (name_builder (base_name file)))) ∧
    List.Forall₂ (fun (e : ClassId) (l : String) => e.id.data <:+: l.data)
      acc.objects
      (acc.objects.map (bind_private_line (name_builder (base_name file)))) ∧
    ((String.join (acc.objects.map struct_field_line)).data <:+:
      (generate_code app file acc).2.data) ∧
    ((String.join (acc.objects.map
        (bind_line (name_builder (base_name file))))).data <:+:
      (generate_code app file acc).2.data) ∧
    ((String.join (acc.objects.map
        (bind_private_line (name_builder (base_name file))))).data <:+:
      (generate_code app file acc).2.data) := by
  obtain ⟨e, es, he⟩ := List.exists_cons_of_ne_nil h
  refine ⟨List.length_map _ _, List.length_map _ _, List.length_map _ _,
    ?_, ?_, ?_, ?_, ?_, ?_⟩
  · rw [List.forall₂_map_right_iff, List.forall₂_same]
    exact fun x _ => struct_field_line_mentions_id x
  · rw [List.forall₂_map_right_iff, List.forall₂_same]
    exact fun x _ => bind_line_mentions_id _ x
  · rw [List.forall₂_map_right_iff, List.forall₂_same]
    exact fun x _ => bind_private_line_mentions_id _ x
  all_goals rw [generate_code_decomp, he]
  all_goals apply str_sub_extend_left
  all_goals apply str_sub_extend_right
  · apply sub_of_decomp
      ("\n/* Class Bindings */\n" ++ "typedef struct \x7b\n")
      ("\x7d " ++ name_builder (base_name file) ++ "Binding;\n" ++ "\n" ++
        "#define " ++ base_name file ++
        "_view_binding(widget_class, WidgetType, binding_name) \\\n" ++
        "\tdo \x7b \\\n" ++
        String.join ((e :: es).map
          (bind_line (name_builder (base_name file)))) ++
        "\t\x7d while(0) \n" ++ "\n" ++
        "#define " ++ base_name file ++
        "_view_binding_private(widget_class, WidgetType, binding_name) \\\n" ++
        "\tdo \x7b \\\n" ++
        String.join ((e :: es).map
          (bind_private_line (name_builder (base_name file)))) ++
        "\t\x7d while(0) \n")
    simp [generate_object_code, str_append_assoc]
  · apply sub_of_decomp
      ("\n/* Class Bindings */\n" ++ "typedef struct \x7b\n" ++
        String.join ((e :: es).map struct_field_line) ++
        "\x7d " ++ name_builder (base_name file) ++ "Binding;\n" ++ "\n" ++
        "#define " ++ base_name file ++
        "_view_binding(widget_class, WidgetType, binding_name) \\\n" ++
        "\tdo \x7b \\\n")
      ("\t\x7d while(0) \n" ++ "\n" ++
        "#define " ++ base_name file ++
        "_view_binding_private(widget_class, WidgetType, binding_name) \\\n" ++
        "\tdo \x7b \\\n" ++
        String.join ((e :: es).map
          (bind_private_line (name_builder (base_name file)))) ++
        "\t\x7d while(0) \n")
    simp [generate_object_code, str_append_assoc]
  · apply sub_of_decomp
      ("\n/* Class Bindings */\n" ++ "typedef struct \x7b\n" ++
        String.join ((e :: es).map struct_field_line) ++
        "\x7d " ++ name_builder (base_name file) ++ "Binding;\n" ++ "\n" ++
        "#define " ++ base_name file ++
        "_view_binding(widget_class, WidgetType, binding_name) \\\n" ++
        "\tdo \x7b \\\n" ++
        String.join ((e :: es).map
          (bind_line (name_builder (base_name file)))) ++
        "\t\x7d while(0) \n" ++ "\n" ++
        "#define " ++ base_name file ++
        "_view_binding_private(widget_class, WidgetType, binding_name) \\\n" ++
        "\tdo \x7b \\\n")
      ("\t\x7d while(0) \n")
    simp [generate_object_code, str_append_assoc]

theorem object_section_counts_and_identifiers_witness :
    ([⟨"GtkButton", "b"⟩].map struct_field_line).length =
      [(⟨"GtkButton", "b"⟩ : ClassId)].length :=
  (object_section_counts_and_identifiers "com_example_App" "a.ui"
    ⟨[⟨"GtkButton", "b"⟩], ["on_h"]⟩ (by decide)).1
